import Mathlib

/-!
Verification development for the `image-manager` package: a shallow embedding
of the device configuration builder (`DeviceImpl.buildList` / `buildIni` /
`toIniString`), the file-backed deployment registry (`DeviceImpl.deploy` /
`isDeployed` / `delete`, `LocalImageImpl.getDevices`) and the resumable
downloader (`ImageDownloaderImpl.startDownload`), together with theorems about
their behaviour.

Modelling conventions:
* JS objects with string keys are insertion-ordered association lists; property
  write updates an existing binding in place and appends a new one at the end.
* `undefined` is `Option.none`; a JS `Record<string, string | undefined>` is a
  `JsObject (Option String)`.
* JS numbers are restricted to naturals: every numeric value flowing through
  the modelled code (cpu count, memory, disk, screen dimensions) is integral.
* `path.resolve`/`path.join` are modelled for a POSIX platform with absolute
  base paths: both are separator concatenation, and `path.sep` is `"/"`.
* Nondeterministic inputs (`crypto.randomUUID()`) are explicit arguments.
-/

namespace ImageManager

/-- A JS `string | undefined` value; `none` models `undefined`. -/
abbrev JsVal := Option String

/-- An insertion-ordered association list modelling a JS object with string
keys. -/
abbrev JsObject (α : Type) := List (String × α)

/-- JS property read: the binding of the key, if present (keys are unique in a
JS object, so the first binding is the binding). -/
def assocGet {α : Type} : JsObject α → String → Option α
  | [], _ => none
  | (a, b) :: t, k => if a == k then some b else assocGet t k

/-- JS property write (`o[k] = v` or spreading a later binding over an earlier
one): update the existing binding in place, keeping its position, or append a
new binding at the end. -/
def assocSet {α : Type} : JsObject α → String → α → JsObject α
  | [], k, v => [(k, v)]
  | (a, b) :: t, k, v => if a == k then (k, v) :: t else (a, b) :: assocSet t k v

/-- JS `s.split(sep)` for a one-character separator, on character lists
(`String.splitOn` restated by structural recursion so that the kernel can
evaluate it). -/
def splitBy (sep : Char) : List Char → List (List Char)
  | [] => [[]]
  | c :: t =>
    if c == sep then [] :: splitBy sep t
    else match splitBy sep t with
      | [] => [[c]]
      | h :: r => (c :: h) :: r

/-- JS `s.split(sep)` for a one-character separator. -/
def splitChar (s : String) (sep : Char) : List String :=
  (splitBy sep s.data).map String.mk

/-- Decimal digit-string parse (`String.toNat?` restated on characters so that
the kernel can evaluate it). -/
def digitsToNat (l : List Char) : Option Nat :=
  if l.isEmpty || !l.all Char.isDigit then none
  else some (l.foldl (fun n c => n * 10 + (c.toNat - 48)) 0)

/-- JS `Number(s)`, restricted to the nonnegative integral decimal strings that
occur as preset screen fields (`"18"`, `"18.00"`, `"2472"`, ...); strings
outside that fragment are mapped to `0`. -/
def jsNumber (s : String) : Nat :=
  match splitBy '.' s.data with
  | [i] => (digitsToNat i).getD 0
  | [i, f] => if f.length != 0 && f.all (fun c => c == '0') then (digitsToNat i).getD 0 else 0
  | _ => 0

/-- JS `n.toFixed(2)` for an integral value. -/
def toFixed2 (n : Nat) : String := toString n ++ ".00"

/-- JS truthiness of a `string | undefined` value: `undefined` and `""` are
falsy. -/
def jsTruthy : Option String → Bool
  | some s => s != ""
  | none => false

/-- `path.join a b` (POSIX, see the modelling conventions). -/
def pathJoin (a b : String) : String := a ++ "/" ++ b

/-- `path.resolve a b` for an absolute `a` (POSIX, see the modelling
conventions). -/
def pathResolve (a b : String) : String := a ++ "/" ++ b

/-- One entry of the product configuration table (`ProductConfigItem` in
`product-config.ts`).  The outer-screen fields are optional; `devModel` is the
optional device-model string read by `DeviceImpl.buildList`. -/
structure ProductConfigItem where
  name : String
  screenWidth : String
  screenHeight : String
  screenDiagonal : String
  screenDensity : String
  outerScreenWidth : Option String := none
  outerDoubleScreenWidth : Option String := none
  outerDoubleScreenHeight : Option String := none
  outerDoubleScreenDiagonal : Option String := none
  outerScreenHeight : Option String := none
  outerScreenDiagonal : Option String := none
  devModel : Option String := none
  visible : Bool := true
deriving DecidableEq

/-- The resolved image-manager options consumed by the modelled code: the
deployment, image, configuration and log base paths, plus the product
configuration table (`ImageManager.getProductConfig`, keyed by the Pascal-case
device type). -/
structure ManagerOptions where
  deployedPath : String
  imageBasePath : String
  configPath : String
  logPath : String
  productConfigTable : JsObject (List ProductConfigItem) := []
deriving DecidableEq

/-- The state of a `LocalImageImpl`: the catalog response fields used by the
getters (`path`, `version`, `apiVersion`, `releaseType`), the resolved
filesystem path, and the owning image manager's options. -/
structure LocalImage where
  path : String
  version : String
  apiVersion : String
  releaseType : String
  fsPath : String
  manager : ManagerOptions
deriving DecidableEq

/-- `ImageBase.getDeviceType`: third comma-segment of the catalog path, first
underscore-segment of that, defaulting to `""`. -/
def LocalImage.getDeviceType (img : LocalImage) : String :=
  match (splitChar img.path ',').get? 2 with
  | none => ""
  | some s => ((splitChar s '_').get? 0).getD ""

/-- `ImageBase.getArch`: last underscore-segment of the third comma-segment of
the catalog path.  (On a malformed path JS yields `undefined`; modelled as
`""`, such paths are not exercised by any claim.) -/
def LocalImage.getArch (img : LocalImage) : String :=
  match (splitChar img.path ',').get? 2 with
  | none => ""
  | some s => ((splitChar s '_').getLast?).getD ""

/-- `ImageBase.getTargetOS`: part of the second comma-segment before `-`. -/
def LocalImage.getTargetOS (img : LocalImage) : String :=
  match (splitChar img.path ',').get? 1 with
  | none => ""
  | some s => ((splitChar s '-').get? 0).getD ""

/-- `ImageBase.getTargetVersion`: part of the second comma-segment after `-`. -/
def LocalImage.getTargetVersion (img : LocalImage) : String :=
  match (splitChar img.path ',').get? 1 with
  | none => ""
  | some s => ((splitChar s '-').get? 1).getD ""

/-- JS `s.toLowerCase()` (`String.toLower`, restated by character mapping so
that the kernel can evaluate it). -/
def toLowerCase (s : String) : String := String.mk (s.data.map Char.toLower)

/-- `ImageBase.getSnakecaseDeviceType`: `"pc"` maps to `"2in1_foldable"`, any
other device type is lower-cased. -/
def LocalImage.getSnakecaseDeviceType (img : LocalImage) : String :=
  let deviceType := img.getDeviceType
  if deviceType == "pc" then "2in1_foldable" else toLowerCase deviceType

/-- `Screen.Options`: the plain rectangular screen value object. -/
structure ScreenOptions where
  diagonal : Nat
  density : Nat
  height : Nat
  width : Nat
deriving DecidableEq

/-- `ProductPresetImpl.toScreen`: numeric conversion of the preset's primary
screen fields. -/
def ProductConfigItem.toScreen (p : ProductConfigItem) : ScreenOptions :=
  { diagonal := jsNumber p.screenDiagonal
    density := jsNumber p.screenDensity
    height := jsNumber p.screenHeight
    width := jsNumber p.screenWidth }

/-- `Device.Options.screen`: either a raw `Screen` or a `ProductPresetImpl`
(carrying its `ProductConfigItem` and Pascal-case device type), distinguished
at runtime by an `instanceof` check. -/
inductive DeviceScreen where
  | raw : ScreenOptions → DeviceScreen
  | preset : ProductConfigItem → String → DeviceScreen
deriving DecidableEq

/-- `Device.Options`. -/
structure DeviceOptions where
  name : String
  cpuNumber : Nat
  diskSize : Nat
  memorySize : Nat
  screen : DeviceScreen
deriving DecidableEq

/-- `FullDeployedImageOptions`: the flattened deployment record persisted in
`lists.json`.  Keys containing dots (`harmonyos.sdk.path`, ...) are camel-cased
field names here. -/
structure FullDeployedImageOptions where
  name : String
  apiVersion : String
  cpuNumber : String
  diagonalSize : String
  resolutionHeight : String
  resolutionWidth : String
  density : String
  memoryRamSize : String
  dataDiskSize : String
  path : String
  type : String
  uuid : String
  version : String
  imageDir : String
  showVersion : String
  harmonyosSdkPath : String
  harmonyosConfigPath : String
  harmonyosLogPath : String
  hwApiName : String
  abi : String
  harmonyOSVersion : String
  guestVersion : String
  devModel : Option String := none
  model : Option String := none
deriving DecidableEq

/-- The configuration mapping produced by `buildIni`: a JS
`Record<string, string | undefined>`. -/
abbrev IniMap := JsObject JsVal

/-- `Device.IniOptions`. -/
structure IniOptions where
  vendorCountry : Option String := none
  isPublic : Option Bool := none
  overrides : JsObject JsVal := []
deriving DecidableEq

/-- The default `Device.IniOptions` (`buildIni()` called without arguments). -/
def defaultIniOptions : IniOptions := {}

/-- The state of a `DeviceImpl`.  `uuid` is the value produced by
`crypto.randomUUID()` in the constructor (or installed later via `setUuid`);
the caches are `null` for a freshly constructed device and are populated only
by `setCachedList`/`setCachedIni` (used by `LocalImageImpl.getDevices`). -/
structure DeviceImpl where
  image : LocalImage
  options : DeviceOptions
  uuid : String
  cachedList : Option FullDeployedImageOptions := none
  cachedIni : Option IniMap := none
deriving DecidableEq

/-- `createDevice` / `new DeviceImpl(image, options)`: the random UUID drawn by
the constructor is passed explicitly. -/
def mkDevice (image : LocalImage) (options : DeviceOptions) (uuid : String) : DeviceImpl :=
  { image := image, options := options, uuid := uuid }

/-- `DeviceImpl.getScreen`: a product preset is converted via `toScreen`, a raw
screen is returned as is. -/
def DeviceImpl.getScreen (d : DeviceImpl) : ScreenOptions :=
  match d.options.screen with
  | .preset p _ => p.toScreen
  | .raw s => s

/-- `DeviceImpl.buildList`. -/
def DeviceImpl.buildList (d : DeviceImpl) : FullDeployedImageOptions :=
  match d.cachedList with
  | some l => l
  | none =>
    let mgr := d.image.manager
    let screen := d.getScreen
    let base : FullDeployedImageOptions := {
      name := d.options.name
      apiVersion := d.image.apiVersion
      cpuNumber := toString d.options.cpuNumber
      diagonalSize := toFixed2 screen.diagonal
      resolutionHeight := toString screen.height
      resolutionWidth := toString screen.width
      density := toString screen.density
      memoryRamSize := toString d.options.memorySize
      dataDiskSize := toString d.options.diskSize
      path := pathResolve mgr.deployedPath d.options.name
      type := d.image.getSnakecaseDeviceType
      uuid := d.uuid
      version := d.image.version
      imageDir := String.intercalate "/" (splitChar d.image.path ',') ++ "/"
      showVersion := d.image.getTargetOS ++ " " ++ d.image.getTargetVersion
        ++ "(" ++ d.image.apiVersion ++ ")"
      harmonyosSdkPath := mgr.imageBasePath
      harmonyosConfigPath := mgr.configPath
      harmonyosLogPath := mgr.logPath
      hwApiName := d.image.getTargetVersion
      abi := d.image.getArch
      harmonyOSVersion := d.image.getTargetOS ++ "-" ++ d.image.getTargetVersion
      guestVersion := d.image.getTargetOS ++ " " ++ d.image.version
        ++ "(" ++ d.image.releaseType ++ ")" }
    match d.options.screen with
    | .raw _ => base
    | .preset p _ =>
      let b1 := if jsTruthy p.devModel then { base with devModel := p.devModel } else base
      if p.name != "" then { b1 with model := some p.name } else b1

/-- The `productConfig` local of `DeviceImpl.buildIni`:
`this.options.screen instanceof ProductPresetImpl ? this.options.screen.getProductConfig() : null`. -/
def DeviceImpl.productConfig (d : DeviceImpl) : Option ProductConfigItem :=
  match d.options.screen with
  | .preset p _ => some p
  | .raw _ => none

/-- The `hasOuterScreen`/`useDualScreen` local of `DeviceImpl.buildIni`: the
record's device type is `2in1_foldable` AND the screen is a product preset
whose `outerScreenWidth`, `outerScreenHeight` and `outerScreenDiagonal` are all
non-null. -/
def DeviceImpl.useDualScreen (d : DeviceImpl) : Bool :=
  (d.buildList.type == "2in1_foldable")
    && (d.productConfig.bind ProductConfigItem.outerScreenWidth).isSome
    && (d.productConfig.bind ProductConfigItem.outerScreenHeight).isSome
    && (d.productConfig.bind ProductConfigItem.outerScreenDiagonal).isSome

/-- The object literal of `DeviceImpl.buildIni` before the overrides spread:
the derived fields in their insertion order. -/
def DeviceImpl.buildIniDerived (d : DeviceImpl) (options : IniOptions) : IniMap :=
    let listConfig := d.buildList
    let screen := d.getScreen
    let productConfig := d.productConfig
    let useDualScreen := d.useDualScreen
    let singleDiagonal :=
      if useDualScreen then (productConfig.bind ProductConfigItem.outerScreenDiagonal).getD ""
      else toString screen.diagonal
    let singleHeight :=
      if useDualScreen then (productConfig.bind ProductConfigItem.outerScreenHeight).getD ""
      else toString screen.height
    let singleWidth :=
      if useDualScreen then (productConfig.bind ProductConfigItem.outerScreenWidth).getD ""
      else toString screen.width
    [
      ("name", some listConfig.name),
      ("deviceType", some listConfig.type),
      ("deviceModel", listConfig.devModel),
      ("productModel", listConfig.model),
      ("vendorCountry", some (options.vendorCountry.getD "CN")),
      ("uuid", some d.uuid),
      ("configPath", some listConfig.harmonyosConfigPath),
      ("logPath", some listConfig.harmonyosLogPath),
      ("sdkPath", some listConfig.harmonyosSdkPath),
      ("imageSubPath", some listConfig.imageDir),
      ("instancePath", some listConfig.path),
      ("os.osVersion", some (d.image.getTargetOS ++ " " ++ d.image.getTargetVersion
        ++ "(" ++ d.image.apiVersion ++ ")")),
      ("os.apiVersion", some d.image.apiVersion),
      ("os.softwareVersion", some d.image.version),
      ("os.isPublic", some (if options.isPublic.getD true then "true" else "false")),
      ("hw.cpu.arch", some listConfig.abi),
      ("hw.cpu.ncore", some listConfig.cpuNumber),
      ("hw.lcd.density", some (toString screen.density)),
      ("hw.lcd.single.diagonalSize", some singleDiagonal),
      ("hw.lcd.single.height", some singleHeight),
      ("hw.lcd.single.width", some singleWidth),
      ("hw.lcd.number", some (if useDualScreen then "2" else "1")),
      ("hw.ramSize", some listConfig.memoryRamSize),
      ("hw.dataPartitionSize", some listConfig.dataDiskSize),
      ("isCustomize", some (if productConfig.isSome then "false" else "true")),
      ("hw.hdc.port", some "notset")]

/-- The `hw.lcd.double.*` assignments of `DeviceImpl.buildIni` (executed after
the overrides spread, in dual-screen mode). -/
def DeviceImpl.buildIniDouble (d : DeviceImpl) (ini1 : IniMap) : IniMap :=
  let productConfig := d.productConfig
  let useDualScreen := d.useDualScreen
  let doubleDiagonal : Option String :=
    if useDualScreen then productConfig.map ProductConfigItem.screenDiagonal else none
  let doubleHeight : Option String :=
    if useDualScreen then productConfig.map ProductConfigItem.screenHeight else none
  let doubleWidth : Option String :=
    if useDualScreen then productConfig.map ProductConfigItem.screenWidth else none
  if useDualScreen && doubleDiagonal.isSome && doubleHeight.isSome && doubleWidth.isSome then
    assocSet (assocSet (assocSet ini1
      "hw.lcd.double.diagonalSize" doubleDiagonal)
      "hw.lcd.double.height" doubleHeight)
      "hw.lcd.double.width" doubleWidth
  else ini1

/-- The `hw.phy.*` assignments of `DeviceImpl.buildIni` (executed after the
overrides spread, for a preset in non-dual mode with truthy outer fields). -/
def DeviceImpl.buildIniPhy (d : DeviceImpl) (ini2 : IniMap) : IniMap :=
  match d.productConfig with
  | none => ini2
  | some pc =>
    if !d.useDualScreen then
      let a := if jsTruthy pc.outerScreenHeight then
          assocSet ini2 "hw.phy.height" pc.outerScreenHeight else ini2
      if jsTruthy pc.outerScreenWidth then
        assocSet a "hw.phy.width" pc.outerScreenWidth else a
    else ini2

/-- `DeviceImpl.buildIni`.  The overrides spread sits inside the object literal
(after every derived field) and is followed by the `hw.lcd.double.*`
assignments (dual-screen mode) and the `hw.phy.*` assignments (non-dual mode
with truthy outer fields). -/
def DeviceImpl.buildIni (d : DeviceImpl) (options : IniOptions) : IniMap :=
  match d.cachedIni with
  | some i => i
  | none =>
    d.buildIniPhy (d.buildIniDouble
      (options.overrides.foldl (fun m kv => assocSet m kv.1 kv.2) (d.buildIniDerived options)))

/-- `Array.prototype.join('\n')`. -/
def joinLines : List String → String
  | [] => ""
  | [x] => x
  | x :: y :: t => x ++ "\n" ++ joinLines (y :: t)

/-- `DeviceImpl.toIniString`: entries of `buildIni()` (with default options)
whose value is neither `undefined` nor `null`, rendered as `key=value` lines in
insertion order with one trailing newline. -/
def DeviceImpl.toIniString (d : DeviceImpl) : String :=
  joinLines ((d.buildIni defaultIniOptions).filterMap
    (fun kv => kv.2.map (fun v => kv.1 ++ "=" ++ v))) ++ "\n"

/-- The shape of a `lists.json` payload as seen by `JSON.parse`: an array of
deployment records, JSON `null`, or any other JSON value. -/
inductive JsonValue where
  | arr : List FullDeployedImageOptions → JsonValue
  | nullv : JsonValue
  | nonArray : JsonValue
deriving DecidableEq

/-- Contents of a file: a JSON document or plain text. -/
inductive FileData where
  | jsonData : JsonValue → FileData
  | textData : String → FileData
deriving DecidableEq

/-- A snapshot of the filesystem: file path → contents, plus the set of
directories. -/
structure Fs where
  files : JsObject FileData
  dirs : List String
deriving DecidableEq

/-- `fs.existsSync p && fs.statSync(p).isFile()`. -/
def Fs.isFile (fs : Fs) (p : String) : Bool := (assocGet fs.files p).isSome

/-- `fs.statSync(p).isDirectory()` (with existence). -/
def Fs.isDir (fs : Fs) (p : String) : Bool := fs.dirs.contains p

/-- `fs.existsSync`. -/
def Fs.existsSync (fs : Fs) (p : String) : Bool := fs.isFile p || fs.isDir p

/-- `fs.writeFileSync`. -/
def Fs.writeFile (fs : Fs) (p : String) (data : FileData) : Fs :=
  { fs with files := assocSet fs.files p data }

/-- `fs.mkdirSync(p, { recursive: true })`: no error when the directory already
exists.  (Parent creation is not tracked; paths are opaque keys.) -/
def Fs.mkdir (fs : Fs) (p : String) : Fs :=
  if fs.dirs.contains p then fs else { fs with dirs := fs.dirs ++ [p] }

/-- `JSON.parse(fs.readFileSync(p, 'utf-8'))` of a file's contents.  A plain
text file is modelled as parsing to a non-array value (no claim reads a text
file as JSON, and the generated `config.ini` text is not valid JSON). -/
def parseJson : FileData → JsonValue
  | .jsonData j => j
  | .textData _ => .nonArray

/-- `fs.readFileSync(p, 'utf-8')` of a file's contents, as text.  (No claim
re-reads a JSON file as text.) -/
def readText : FileData → String
  | .textData s => s
  | .jsonData _ => ""

/-- `DeployError.Code` (errors.ts). -/
inductive DeployErrorCode where
  | DEVICE_ALREADY_DEPLOYED
  | LIST_JSON_NOT_AN_ARRAY
  | CATCHED_ERROR
  | MAYBE_OPENED_DEVICE_MANAGER_IN_DEVECO_STUDIO
  | SYMLINK_SDK_PATH_EXISTS
deriving DecidableEq

/-- A raised JS error: a `DeployError` with its code, a `TypeError` (e.g. from
calling `.some`/`.findIndex` on a non-array), or a filesystem error. -/
inductive JsErr where
  | deployErr : DeployErrorCode → JsErr
  | typeErr : JsErr
  | fsErr : JsErr
deriving DecidableEq

/-- The path of the registry file for a device's manager:
`path.join(deployedPath, 'lists.json')`. -/
def DeviceImpl.listsPath (d : DeviceImpl) : String :=
  pathJoin d.image.manager.deployedPath "lists.json"

/-- `DeviceImpl.isDeployed`: `false` when the registry file is absent or not a
file; otherwise `JSON.parse(...) ?? []` followed by
`.some(item => item.name === name && existsSync(resolve(item.path, 'config.ini')))`.
A non-array, non-null payload makes `.some` throw a `TypeError`. -/
def DeviceImpl.isDeployed (d : DeviceImpl) (fs : Fs) : Except JsErr Bool :=
  match assocGet fs.files d.listsPath with
  | none => .ok false
  | some fd =>
    match parseJson fd with
    | .arr lists =>
      .ok (lists.any (fun item =>
        item.name == d.options.name && fs.existsSync (pathResolve item.path "config.ini")))
    | .nullv => .ok false
    | .nonArray => .error .typeErr

/-- Body of `DeviceImpl.deploy` after the `isDeployed` early return and the
`mkdirSync(deployedPath)` step (source lines 223-242): the
`existsSync(listConfig.path)` duplicate check, the early
`return writeFileSync(listsPath, [listConfig])` when the registry file is
absent, the parse + array check + name check, and finally the three writes
(registry rewrite, target directory, `config.ini`). -/
def DeviceImpl.deployCore (d : DeviceImpl) (fs1 : Fs) : Option JsErr × Fs :=
  let listConfig := d.buildList
  if fs1.existsSync listConfig.path then
    (some (.deployErr .DEVICE_ALREADY_DEPLOYED), fs1)
  else if !fs1.existsSync d.listsPath then
    (none, fs1.writeFile d.listsPath (.jsonData (.arr [listConfig])))
  else
    match assocGet fs1.files d.listsPath with
    | none => (some .fsErr, fs1)
    | some fd =>
      match parseJson fd with
      | .nonArray => (some (.deployErr .LIST_JSON_NOT_AN_ARRAY), fs1)
      | j =>
        let lists := match j with | .arr l => l | _ => []
        if lists.any (fun item => item.name == listConfig.name) then
          (some (.deployErr .DEVICE_ALREADY_DEPLOYED), fs1)
        else
          let fs2 := fs1.writeFile d.listsPath (.jsonData (.arr (lists ++ [listConfig])))
          let fs3 := fs2.mkdir listConfig.path
          (none, fs3.writeFile (pathJoin listConfig.path "config.ini") (.textData d.toIniString))

/-- `DeviceImpl.deploy`, as a state transformer returning the raised error (if
any) and the filesystem after the call.  Mirrors the source order: the
`isDeployed` early return, then `mkdirSync(deployedPath)` when absent, then
`deployCore`. -/
def DeviceImpl.deploy (d : DeviceImpl) (fs : Fs) : Option JsErr × Fs :=
  match d.isDeployed fs with
  | .error e => (some e, fs)
  | .ok true => (none, fs)
  | .ok false =>
    let mgr := d.image.manager
    d.deployCore (if !fs.existsSync mgr.deployedPath then fs.mkdir mgr.deployedPath else fs)

/-- `LocalImageImpl.getPascalCaseDeviceType`. -/
def LocalImage.getPascalCaseDeviceType (img : LocalImage) : Option String :=
  let deviceType := toLowerCase img.getDeviceType
  if deviceType == "" then none
  else if deviceType == "pc" then some "2in1 Foldable"
  else match ["phone", "tablet", "2in1", "foldable", "widefold", "triplefold",
      "2in1 foldable", "tv", "wearable"].find? (fun k => k == deviceType) with
    | some k => some k
    | none => none

/-- `LocalImageImpl.getProductConfig` (reading the manager's table): the
`"pc"` device type maps to the `"2in1 Foldable"` bucket, otherwise the first
table key equal to the device type up to case. -/
def LocalImage.getProductConfig (img : LocalImage) : List ProductConfigItem :=
  let productConfig := img.manager.productConfigTable
  let deviceType := toLowerCase img.getDeviceType
  if deviceType == "" then []
  else if deviceType == "pc" then (assocGet productConfig "2in1 Foldable").getD []
  else match productConfig.find? (fun kv => toLowerCase kv.1 == deviceType) with
    | some kv => kv.2
    | none => []

/-- `LocalImageImpl.createScreenLike`: reconstruct a screen or product preset
from a persisted record.  The preset is used only when a product-config item
with the record's `model` name exists, a Pascal-case device type resolves, and
all four primary screen fields match the record verbatim. -/
def LocalImage.createScreenLike (img : LocalImage) (item : FullDeployedImageOptions) :
    DeviceScreen :=
  let rawScreen : DeviceScreen := .raw
    { diagonal := jsNumber item.diagonalSize
      height := jsNumber item.resolutionHeight
      width := jsNumber item.resolutionWidth
      density := jsNumber item.density }
  match item.model with
  | none => rawScreen
  | some m =>
    if m == "" then rawScreen
    else
      match img.getProductConfig.find? (fun it => it.name == m),
          img.getPascalCaseDeviceType with
      | some it, some pdt =>
        if it.screenDiagonal == item.diagonalSize && it.screenHeight == item.resolutionHeight &&
            it.screenWidth == item.resolutionWidth && it.screenDensity == item.density then
          .preset it pdt
        else rawScreen
      | _, _ => rawScreen

/-- `INI.parse` of a generated `config.ini`, restricted to the plain
`key=value` dialect the package writes (no sections, comments or type
coercions). -/
def splitLines (l : List Char) : List (List Char) := splitBy '\n' l

/-- Split a line at its first `=`: key before, value after (a line without `=`
is all key, empty value). -/
def splitFirstEq : List Char → List Char × List Char
  | [] => ([], [])
  | c :: t =>
    if c == '=' then ([], t)
    else
      let kv := splitFirstEq t
      (c :: kv.1, kv.2)

/-- Parse `key=value` lines: split on newlines, drop empty lines, split each
line at its first `=`. -/
def parseIniText (s : String) : List (String × String) :=
  ((splitLines s.data).filter (fun l => !l.isEmpty)).map
    (fun line =>
      let kv := splitFirstEq line
      (String.mk kv.1, String.mk kv.2))

/-- `LocalImageImpl.getDevices`: read `lists.json`; a payload that is not an
array yields the empty device list; otherwise each record whose `imageDir`
resolves to this image, whose `config.ini` exists, and whose target directory
is a directory, is turned back into a device (uuid, cached list and cached ini
installed from disk). -/
def LocalImage.getDevices (img : LocalImage) (fs : Fs) : Except JsErr (List DeviceImpl) :=
  let listsJsonPath := pathResolve img.manager.deployedPath "lists.json"
  match assocGet fs.files listsJsonPath with
  | none => .ok []
  | some fd =>
    match parseJson fd with
    | .arr lists =>
      .ok (lists.foldl (fun devices item =>
        if pathResolve img.manager.imageBasePath item.imageDir != img.fsPath then devices
        else
          let iniFilePath := pathResolve item.path "config.ini"
          match assocGet fs.files iniFilePath with
          | none => devices
          | some inifd =>
            let device : DeviceImpl :=
              { image := img
                options :=
                  { name := item.name
                    cpuNumber := jsNumber item.cpuNumber
                    diskSize := jsNumber item.dataDiskSize
                    memorySize := jsNumber item.memoryRamSize
                    screen := img.createScreenLike item }
                uuid := item.uuid
                cachedList := some item
                cachedIni := some ((parseIniText (readText inifd)).map
                  (fun kv => (kv.1, some kv.2))) }
            if !fs.isDir item.path then devices
            else devices ++ [device]) [])
    | _ => .ok []

/-- The cache-file side of one `ImageDownloaderImpl.startDownload` call: the
partial cache file's contents as bytes (`none` when absent). -/
structure DownloadFs where
  cacheFile : Option (List Nat) := none
deriving DecidableEq

/-- Observable outcome of a successful `startDownload`: the `Range` header
sent (if any), the accepted HTTP status, whether the stale partial file was
removed, the write-stream flags and start offset, and the cache file after the
body was streamed. -/
structure DownloadRun where
  rangeHeader : Option String
  status : Nat
  removedStale : Bool
  writeFlags : String
  writeStart : Nat
  fs : DownloadFs
deriving DecidableEq

/-- The `startByte` computation of `startDownload`: the size of an existing
partial cache file, else 0. -/
def resumeOffset (fs : DownloadFs) : Nat :=
  match fs.cacheFile with
  | some content => content.length
  | none => 0

/-- `ImageDownloaderImpl.startDownload` (image-downloader.ts): the resume
offset is the size of an existing cache file; a `Range: bytes=<offset>-`
header is sent when the offset is positive; `validateStatus` accepts exactly
200 and 206 (any other status makes axios reject, before any filesystem
write); on a 200 with a positive offset the stale partial file is removed and
the body is written from byte 0 with flags `w`; on a 206 with a positive
offset the body is appended at the offset with flags `a`. -/
def startDownload (fs : DownloadFs) (status : Nat) (body : List Nat) :
    Except Nat DownloadRun :=
  let startByte := resumeOffset fs
  let rangeHeader :=
    if startByte > 0 then some ("bytes=" ++ toString startByte ++ "-") else none
  if !(status == 200 || status == 206) then .error status
  else
    let resumeHonored := status == 206
    let writeStart := if startByte > 0 && resumeHonored then startByte else 0
    let writeFlags := if writeStart > 0 then "a" else "w"
    let removedStale := startByte > 0 && !resumeHonored
    let fsAfterRm : DownloadFs := if removedStale then { cacheFile := none } else fs
    let newContent :=
      if writeFlags == "a" then (fsAfterRm.cacheFile.getD []) ++ body else body
    .ok { rangeHeader := rangeHeader, status := status, removedStale := removedStale
          writeFlags := writeFlags, writeStart := writeStart
          fs := { cacheFile := some newContent } }

/-! ### Association-list lemmas -/

theorem assocGet_assocSet_self {α : Type} (m : JsObject α) (k : String) (v : α) :
    assocGet (assocSet m k v) k = some v := by
  induction m with
  | nil => simp [assocGet, assocSet]
  | cons hd t ih =>
    obtain ⟨a, b⟩ := hd
    by_cases h : a = k
    · simp [assocSet, assocGet, h]
    · simp [assocSet, assocGet, h, ih]

theorem assocGet_assocSet_ne {α : Type} (m : JsObject α) (k k' : String) (v : α)
    (h : k' ≠ k) : assocGet (assocSet m k v) k' = assocGet m k' := by
  induction m with
  | nil => simp [assocGet, assocSet, Ne.symm h]
  | cons hd t ih =>
    obtain ⟨a, b⟩ := hd
    by_cases ha : a = k
    · subst ha
      simp [assocSet, assocGet, Ne.symm h]
    · by_cases ha' : a = k'
      · subst ha'
        simp [assocSet, assocGet, ha]
      · simp [assocSet, assocGet, ha, ha', ih]

theorem assocGet_foldl_not_mem {α : Type} (ovr : JsObject α) (m : JsObject α) (k : String)
    (h : ∀ kv ∈ ovr, kv.1 ≠ k) :
    assocGet (ovr.foldl (fun acc kv => assocSet acc kv.1 kv.2) m) k = assocGet m k := by
  induction ovr generalizing m with
  | nil => rfl
  | cons hd t ih =>
    rw [List.foldl_cons, ih _ (fun kv hk => h kv (List.mem_cons_of_mem _ hk))]
    exact assocGet_assocSet_ne m hd.1 k hd.2 (h hd (List.mem_cons_self _ _)).symm

theorem assocGet_foldl_mem {α : Type} (ovr : JsObject α) (m : JsObject α) (k : String)
    (v : α) (hnd : (ovr.map Prod.fst).Nodup) (hmem : (k, v) ∈ ovr) :
    assocGet (ovr.foldl (fun acc kv => assocSet acc kv.1 kv.2) m) k = some v := by
  induction ovr generalizing m with
  | nil => cases hmem
  | cons hd t ih =>
    rcases List.mem_cons.mp hmem with heq | hmem'
    · subst heq
      rw [List.foldl_cons]
      have hnot : ∀ kv ∈ t, kv.1 ≠ k := by
        intro kv hk hkk
        have h1 : kv.1 ∈ t.map Prod.fst := List.mem_map_of_mem Prod.fst hk
        rw [hkk] at h1
        exact (List.nodup_cons.mp hnd).1 h1
      rw [assocGet_foldl_not_mem t _ k hnot]
      exact assocGet_assocSet_self m k v
    · exact ih _ (List.nodup_cons.mp hnd).2 hmem'

/-! ### Mappings that agree at every key except one -/

/-- Two ordered mappings with the same keys in the same order whose values
agree at every key other than `k`. -/
def AgreeExcept (k : String) (m₁ m₂ : IniMap) : Prop :=
  List.Forall₂ (fun a b => a.1 = b.1 ∧ (a.1 ≠ k → a.2 = b.2)) m₁ m₂

theorem AgreeExcept.set {k : String} {m₁ m₂ : IniMap} (h : AgreeExcept k m₁ m₂)
    (k' : String) (v : JsVal) : AgreeExcept k (assocSet m₁ k' v) (assocSet m₂ k' v) := by
  induction h with
  | nil => exact List.Forall₂.cons ⟨rfl, fun _ => rfl⟩ List.Forall₂.nil
  | @cons a b l₁ l₂ hab ht ih =>
    obtain ⟨hkey, hval⟩ := hab
    obtain ⟨a1, a2⟩ := a
    obtain ⟨b1, b2⟩ := b
    simp only at hkey hval
    subst hkey
    by_cases hk : a1 = k'
    · simp only [assocSet, hk, beq_self_eq_true, if_pos]
      exact List.Forall₂.cons ⟨rfl, fun _ => rfl⟩ ht
    · simp only [assocSet, beq_iff_eq, hk, if_neg, if_false]
      exact List.Forall₂.cons ⟨rfl, hval⟩ ih

theorem AgreeExcept.foldl {k : String} {m₁ m₂ : IniMap} (h : AgreeExcept k m₁ m₂)
    (ovr : JsObject JsVal) :
    AgreeExcept k (ovr.foldl (fun acc kv => assocSet acc kv.1 kv.2) m₁)
      (ovr.foldl (fun acc kv => assocSet acc kv.1 kv.2) m₂) := by
  induction ovr generalizing m₁ m₂ with
  | nil => exact h
  | cons hd t ih => exact ih (h.set hd.1 hd.2)

theorem AgreeExcept.filter_eq {k : String} {m₁ m₂ : IniMap} (h : AgreeExcept k m₁ m₂) :
    m₁.filter (fun kv => kv.1 != k) = m₂.filter (fun kv => kv.1 != k) := by
  induction h with
  | nil => rfl
  | @cons a b l₁ l₂ hab ht ih =>
    obtain ⟨hkey, hval⟩ := hab
    obtain ⟨a1, a2⟩ := a
    obtain ⟨b1, b2⟩ := b
    simp only at hkey hval
    subst hkey
    by_cases hk : a1 = k
    · simpa [hk] using ih
    · have : a2 = b2 := hval hk
      subst this
      simpa [hk] using ih

/-! ### Serialisation / parsing lemmas -/

theorem splitBy_append (sep : Char) (l rest : List Char) (h : sep ∉ l) :
    splitBy sep (l ++ sep :: rest) = l :: splitBy sep rest := by
  induction l with
  | nil => simp [splitBy]
  | cons c t ih =>
    have hc : c ≠ sep := fun hcc => h (hcc ▸ List.mem_cons_self c t)
    have ht : sep ∉ t := fun hm => h (List.mem_cons_of_mem c hm)
    simp [splitBy, hc, ih ht]

theorem splitLines_append (l rest : List Char) (h : '\n' ∉ l) :
    splitLines (l ++ '\n' :: rest) = l :: splitLines rest :=
  splitBy_append '\n' l rest h

theorem splitFirstEq_append (k v : List Char) (h : '=' ∉ k) :
    splitFirstEq (k ++ '=' :: v) = (k, v) := by
  induction k with
  | nil => simp [splitFirstEq]
  | cons c t ih =>
    have hc : c ≠ '=' := fun hc => h (hc ▸ List.mem_cons_self c t)
    have ht : '=' ∉ t := fun hm => h (List.mem_cons_of_mem c hm)
    simp [splitFirstEq, hc, ih ht]

/-! ### Path and filesystem lemmas -/

theorem lists_json_ne_config_ini (s t : String) :
    s ++ "lists.json" ≠ t ++ "config.ini" := by
  intro hEq
  have h1 : (s ++ "lists.json").data = (t ++ "config.ini").data := by rw [hEq]
  rw [String.data_append, String.data_append] at h1
  have h2 := congrArg List.getLast? h1
  rw [List.getLast?_append_of_ne_nil _ (by decide),
    List.getLast?_append_of_ne_nil _ (by decide)] at h2
  exact absurd h2 (by decide)

theorem Fs.mkdir_files (fs : Fs) (p : String) : (fs.mkdir p).files = fs.files := by
  unfold Fs.mkdir
  split <;> rfl

theorem Fs.writeFile_files (fs : Fs) (p : String) (data : FileData) :
    (fs.writeFile p data).files = assocSet fs.files p data := rfl

theorem Fs.writeFile_dirs (fs : Fs) (p : String) (data : FileData) :
    (fs.writeFile p data).dirs = fs.dirs := rfl

theorem Fs.existsSync_of_isFile {fs : Fs} {p : String} (h : fs.isFile p = true) :
    fs.existsSync p = true := by
  unfold Fs.existsSync
  rw [h]
  rfl

/-! ### Basic facts about `buildList` -/

theorem buildList_name (d : DeviceImpl) (h : d.cachedList = none) :
    d.buildList.name = d.options.name := by
  simp only [DeviceImpl.buildList, h]
  cases d.options.screen with
  | raw s => rfl
  | preset p dt =>
    by_cases h1 : jsTruthy p.devModel <;> by_cases h2 : p.name != "" <;>
      simp [h1, h2]

/-- Entries of the registry file as read back by `isDeployed`/`deploy` (empty
when the file is absent or does not hold an array). -/
def registryEntries (d : DeviceImpl) (fs : Fs) : List FullDeployedImageOptions :=
  match assocGet fs.files d.listsPath with
  | some (.jsonData (.arr l)) => l
  | _ => []

/-- Number of registry entries carrying the device's name. -/
def registryCountName (d : DeviceImpl) (fs : Fs) : Nat :=
  (registryEntries d fs).countP (fun item => item.name == d.options.name)

/-! ### Round-trip of `toIniString` -/

theorem filter_splitLines_join (ls : List String)
    (h : ∀ l ∈ ls, l.data ≠ [] ∧ '\n' ∉ l.data) :
    (splitLines (joinLines ls ++ "\n").data).filter (fun l => !l.isEmpty)
      = ls.map String.data := by
  induction ls with
  | nil => rfl
  | cons x xs ih =>
    cases xs with
    | nil =>
      have hx := h x (List.mem_cons_self x [])
      have hdata : (joinLines [x] ++ "\n").data = x.data ++ '\n' :: [] := by
        simp [joinLines, String.data_append]
      rw [hdata, splitLines_append x.data [] hx.2]
      simp [splitLines, splitBy, hx.1, List.isEmpty_iff]
    | cons y t =>
      have hx := h x (List.mem_cons_self _ _)
      have hrest : ∀ l ∈ y :: t, l.data ≠ [] ∧ '\n' ∉ l.data :=
        fun l hl => h l (List.mem_cons_of_mem _ hl)
      have hdata : (joinLines (x :: y :: t) ++ "\n").data
          = x.data ++ '\n' :: (joinLines (y :: t) ++ "\n").data := by
        simp [joinLines, String.data_append]
      rw [hdata, splitLines_append _ _ hx.2, List.filter_cons]
      rw [ih hrest]
      simp [List.isEmpty_iff, hx.1]

theorem parseIniText_joinLines (m : IniMap)
    (h : ∀ kv ∈ m, '\n' ∉ kv.1.data ∧ '=' ∉ kv.1.data ∧
      ∀ s, kv.2 = some s → '\n' ∉ s.data) :
    parseIniText (joinLines (m.filterMap (fun kv => kv.2.map (fun v => kv.1 ++ "=" ++ v))) ++ "\n")
      = m.filterMap (fun kv => kv.2.map (fun v => (kv.1, v))) := by
  unfold parseIniText
  have hlines : ∀ l ∈ m.filterMap (fun kv => kv.2.map (fun v => kv.1 ++ "=" ++ v)),
      l.data ≠ [] ∧ '\n' ∉ l.data := by
    intro l hl
    rcases List.mem_filterMap.mp hl with ⟨kv, hkv, hmap⟩
    rcases Option.map_eq_some'.mp hmap with ⟨v, hv, rfl⟩
    have hk := h kv hkv
    constructor
    · rw [String.data_append, String.data_append]
      simp
    · rw [String.data_append, String.data_append]
      intro hmem
      rcases List.mem_append.mp hmem with h1 | h1
      · rcases List.mem_append.mp h1 with h2 | h2
        · exact hk.1 h2
        · simp at h2
      · exact hk.2.2 v hv h1
  rw [filter_splitLines_join _ hlines, List.map_map, List.map_filterMap]
  refine List.filterMap_congr ?_
  intro kv hkv
  have hk := h kv hkv
  cases hv : kv.2 with
  | none => rfl
  | some v =>
    have hdata : (kv.1 ++ "=" ++ v).data = kv.1.data ++ '=' :: v.data := by
      rw [String.data_append, String.data_append]
      simp
    simp only [Option.map_some', Function.comp_apply, hdata,
      splitFirstEq_append kv.1.data v.data hk.2.1]

/-! ### Normal form of `buildList`, projections of `mkDevice` -/

/-- The deployment record that `buildList` produces for an uncached device, as
one record expression (the two conditional `devModel`/`model` patches folded
into the fields). -/
def DeviceImpl.buildListRecord (d : DeviceImpl) : FullDeployedImageOptions :=
  let mgr := d.image.manager
  let screen := d.getScreen
  { name := d.options.name
    apiVersion := d.image.apiVersion
    cpuNumber := toString d.options.cpuNumber
    diagonalSize := toFixed2 screen.diagonal
    resolutionHeight := toString screen.height
    resolutionWidth := toString screen.width
    density := toString screen.density
    memoryRamSize := toString d.options.memorySize
    dataDiskSize := toString d.options.diskSize
    path := pathResolve mgr.deployedPath d.options.name
    type := d.image.getSnakecaseDeviceType
    uuid := d.uuid
    version := d.image.version
    imageDir := String.intercalate "/" (splitChar d.image.path ',') ++ "/"
    showVersion := d.image.getTargetOS ++ " " ++ d.image.getTargetVersion
      ++ "(" ++ d.image.apiVersion ++ ")"
    harmonyosSdkPath := mgr.imageBasePath
    harmonyosConfigPath := mgr.configPath
    harmonyosLogPath := mgr.logPath
    hwApiName := d.image.getTargetVersion
    abi := d.image.getArch
    harmonyOSVersion := d.image.getTargetOS ++ "-" ++ d.image.getTargetVersion
    guestVersion := d.image.getTargetOS ++ " " ++ d.image.version
      ++ "(" ++ d.image.releaseType ++ ")"
    devModel := match d.options.screen with
      | .preset p _ => if jsTruthy p.devModel then p.devModel else none
      | .raw _ => none
    model := match d.options.screen with
      | .preset p _ => if p.name != "" then some p.name else none
      | .raw _ => none }

theorem buildList_eq_record (d : DeviceImpl) (h : d.cachedList = none) :
    d.buildList = d.buildListRecord := by
  unfold DeviceImpl.buildList DeviceImpl.buildListRecord
  rw [h]
  cases hs : d.options.screen with
  | raw s => rfl
  | preset p dt =>
    by_cases h1 : jsTruthy p.devModel <;> by_cases h2 : p.name != "" <;>
      simp [h1, h2]

theorem mkDevice_cachedIni (i : LocalImage) (o : DeviceOptions) (u : String) :
    (mkDevice i o u).cachedIni = none := rfl

theorem mkDevice_cachedList (i : LocalImage) (o : DeviceOptions) (u : String) :
    (mkDevice i o u).cachedList = none := rfl

theorem mkDevice_options (i : LocalImage) (o : DeviceOptions) (u : String) :
    (mkDevice i o u).options = o := rfl

theorem mkDevice_image (i : LocalImage) (o : DeviceOptions) (u : String) :
    (mkDevice i o u).image = i := rfl

theorem mkDevice_uuid (i : LocalImage) (o : DeviceOptions) (u : String) :
    (mkDevice i o u).uuid = u := rfl

/-- The dual-screen decision condition of the specification, stated on the
inputs: the image's snake-case device type is the `2in1_foldable` tag, the
screen is a product preset, and the preset defines all three outer-screen
fields. -/
def dualScreenSelected (img : LocalImage) (opts : DeviceOptions) : Bool :=
  img.getSnakecaseDeviceType == "2in1_foldable" &&
    (match opts.screen with
     | .preset p _ => p.outerScreenWidth.isSome && p.outerScreenHeight.isSome
        && p.outerScreenDiagonal.isSome
     | .raw _ => false)

theorem productConfig_mkDevice (i : LocalImage) (o : DeviceOptions) (u : String) :
    (mkDevice i o u).productConfig
      = (match o.screen with | .preset p _ => some p | .raw _ => none) := rfl

theorem useDualScreen_mkDevice (i : LocalImage) (o : DeviceOptions) (u : String) :
    (mkDevice i o u).useDualScreen = dualScreenSelected i o := by
  unfold DeviceImpl.useDualScreen dualScreenSelected
  rw [buildList_eq_record _ (mkDevice_cachedList i o u), productConfig_mkDevice]
  cases hs : o.screen with
  | raw s => simp [DeviceImpl.buildListRecord, mkDevice_image, hs]
  | preset p dt =>
    simp [DeviceImpl.buildListRecord, mkDevice_image, hs, Bool.and_assoc]

/-! ### Lookups through the post-override assignment stages -/

theorem assocGet_buildIniDouble_ne (d : DeviceImpl) (m : IniMap) (k : String)
    (h1 : k ≠ "hw.lcd.double.diagonalSize") (h2 : k ≠ "hw.lcd.double.height")
    (h3 : k ≠ "hw.lcd.double.width") :
    assocGet (d.buildIniDouble m) k = assocGet m k := by
  by_cases hd : d.useDualScreen <;> cases hp : d.productConfig <;>
    simp [DeviceImpl.buildIniDouble, hd, hp, assocGet_assocSet_ne _ _ _ _ h1,
      assocGet_assocSet_ne _ _ _ _ h2, assocGet_assocSet_ne _ _ _ _ h3]

theorem assocGet_buildIniPhy_ne (d : DeviceImpl) (m : IniMap) (k : String)
    (h1 : k ≠ "hw.phy.height") (h2 : k ≠ "hw.phy.width") :
    assocGet (d.buildIniPhy m) k = assocGet m k := by
  unfold DeviceImpl.buildIniPhy
  cases d.productConfig with
  | none => rfl
  | some pc =>
    by_cases hd : !d.useDualScreen <;>
      by_cases hh : jsTruthy pc.outerScreenHeight <;>
      by_cases hw : jsTruthy pc.outerScreenWidth <;>
      simp [hd, hh, hw, assocGet_assocSet_ne _ _ _ _ h1, assocGet_assocSet_ne _ _ _ _ h2]

/-! ### Concrete fixtures (mirroring the repository's test fixtures) -/

/-- The `MateBook Fold` product-config item from the default product config
(values as asserted by the repository's test snapshot). -/
def mateBookFoldItem : ProductConfigItem :=
  { name := "MateBook Fold", screenWidth := "3296", screenHeight := "2472",
    screenDiagonal := "18", screenDensity := "288",
    outerScreenWidth := some "2472", outerScreenHeight := some "1648",
    outerScreenDiagonal := some "13", devModel := some "PCEMU-FD05" }

/-- Sample resolved manager options. -/
def sampleManager : ManagerOptions :=
  { deployedPath := "/dp", imageBasePath := "/ib", configPath := "/cp", logPath := "/lp" }

/-- A `pc` (2-in-1 foldable) local image. -/
def pcImage : LocalImage :=
  { path := "system-image,HarmonyOS-6.0.2,pc_all_arm", version := "6.0.0.129",
    apiVersion := "22", releaseType := "Beta1",
    fsPath := "/ib/system-image/HarmonyOS-6.0.2/pc_all_arm", manager := sampleManager }

/-- A `phone` local image. -/
def phoneImage : LocalImage :=
  { path := "system-image,HarmonyOS-6.0.2,phone_arm", version := "6.0.0.129",
    apiVersion := "22", releaseType := "Beta1",
    fsPath := "/ib/system-image/HarmonyOS-6.0.2/phone_arm", manager := sampleManager }

/-- Device options carrying the MateBook Fold preset. -/
def foldDeviceOptions : DeviceOptions :=
  { name := "MateBook Fold", cpuNumber := 4, diskSize := 6144, memorySize := 4096,
    screen := .preset mateBookFoldItem "2in1 Foldable" }

/-- Device options carrying a raw screen. -/
def rawDeviceOptions : DeviceOptions :=
  { name := "MyPhone", cpuNumber := 2, diskSize := 2048, memorySize := 1024,
    screen := .raw { diagonal := 6, density := 320, height := 2340, width := 1080 } }

/-- A freshly constructed foldable device. -/
def foldDevice : DeviceImpl := mkDevice pcImage foldDeviceOptions "aaa-bbb-ccc-ddd-eee"

/-- A freshly constructed raw-screen device. -/
def rawDevice : DeviceImpl := mkDevice phoneImage rawDeviceOptions "111-222-333-444-555"

set_option maxHeartbeats 1600000 in
set_option maxRecDepth 8000 in
/-- C1: for every freshly built device, `buildIni` selects dual-screen mode
exactly when the image's device-type classification is the `2in1_foldable`
tag, the screen is a product preset, and the preset defines all three
outer-screen fields; in dual mode the `hw.lcd.single.*` fields carry the outer
(folded) screen's diagonal/height/width, the `hw.lcd.double.*` fields carry
the primary preset (unfolded) screen's diagonal/height/width, and
`hw.lcd.number` is `"2"`; otherwise the `hw.lcd.single.*` fields carry the
primary screen's own dimensions, `hw.lcd.number` is `"1"`, and no
`hw.lcd.double.*` field is emitted. -/
theorem buildIni_dual_screen_rule (img : LocalImage) (opts : DeviceOptions) (u : String) :
    (dualScreenSelected img opts = true →
      ∀ p dt, opts.screen = .preset p dt →
        assocGet ((mkDevice img opts u).buildIni defaultIniOptions) "hw.lcd.number"
          = some (some "2") ∧
        assocGet ((mkDevice img opts u).buildIni defaultIniOptions) "hw.lcd.single.diagonalSize"
          = some p.outerScreenDiagonal ∧
        assocGet ((mkDevice img opts u).buildIni defaultIniOptions) "hw.lcd.single.height"
          = some p.outerScreenHeight ∧
        assocGet ((mkDevice img opts u).buildIni defaultIniOptions) "hw.lcd.single.width"
          = some p.outerScreenWidth ∧
        assocGet ((mkDevice img opts u).buildIni defaultIniOptions) "hw.lcd.double.diagonalSize"
          = some (some p.screenDiagonal) ∧
        assocGet ((mkDevice img opts u).buildIni defaultIniOptions) "hw.lcd.double.height"
          = some (some p.screenHeight) ∧
        assocGet ((mkDevice img opts u).buildIni defaultIniOptions) "hw.lcd.double.width"
          = some (some p.screenWidth)) ∧
    (dualScreenSelected img opts = false →
      assocGet ((mkDevice img opts u).buildIni defaultIniOptions) "hw.lcd.number"
        = some (some "1") ∧
      assocGet ((mkDevice img opts u).buildIni defaultIniOptions) "hw.lcd.single.diagonalSize"
        = some (some (toString (mkDevice img opts u).getScreen.diagonal)) ∧
      assocGet ((mkDevice img opts u).buildIni defaultIniOptions) "hw.lcd.single.height"
        = some (some (toString (mkDevice img opts u).getScreen.height)) ∧
      assocGet ((mkDevice img opts u).buildIni defaultIniOptions) "hw.lcd.single.width"
        = some (some (toString (mkDevice img opts u).getScreen.width)) ∧
      assocGet ((mkDevice img opts u).buildIni defaultIniOptions) "hw.lcd.double.diagonalSize"
        = none ∧
      assocGet ((mkDevice img opts u).buildIni defaultIniOptions) "hw.lcd.double.height"
        = none ∧
      assocGet ((mkDevice img opts u).buildIni defaultIniOptions) "hw.lcd.double.width"
        = none) := by
  have hrec : (mkDevice img opts u).buildList = (mkDevice img opts u).buildListRecord :=
    buildList_eq_record _ rfl
  constructor
  · intro hdual p dt hscr
    by_cases h1 : img.getSnakecaseDeviceType = "2in1_foldable" <;>
      by_cases hw2 : p.outerScreenWidth.isSome <;>
      by_cases hh2 : p.outerScreenHeight.isSome <;>
      by_cases hd2 : p.outerScreenDiagonal.isSome <;>
      first
      | (obtain ⟨ow, how⟩ := Option.isSome_iff_exists.mp hw2
         obtain ⟨oh, hoh⟩ := Option.isSome_iff_exists.mp hh2
         obtain ⟨od, hod⟩ := Option.isSome_iff_exists.mp hd2
         simp [DeviceImpl.buildIni, DeviceImpl.buildIniDerived, DeviceImpl.buildIniDouble,
           DeviceImpl.buildIniPhy, DeviceImpl.productConfig, DeviceImpl.useDualScreen,
           mkDevice_cachedIni, mkDevice_options, mkDevice_image, mkDevice_uuid,
           hrec, DeviceImpl.buildListRecord, DeviceImpl.getScreen,
           hscr, h1, how, hoh, hod, defaultIniOptions, assocGet, assocSet]
         done)
      | (rw [dualScreenSelected, hscr] at hdual
         simp [h1, hw2, hh2, hd2] at hdual)
  · intro hcond
    cases hscr : opts.screen with
    | raw s =>
      simp [DeviceImpl.buildIni, DeviceImpl.buildIniDerived, DeviceImpl.buildIniDouble,
        DeviceImpl.buildIniPhy, DeviceImpl.productConfig, DeviceImpl.useDualScreen,
        mkDevice_cachedIni, mkDevice_options, mkDevice_image, mkDevice_uuid,
        hrec, DeviceImpl.buildListRecord, DeviceImpl.getScreen,
        hscr, defaultIniOptions, assocGet, assocSet]
    | preset p dt =>
      by_cases h1 : img.getSnakecaseDeviceType = "2in1_foldable" <;>
        by_cases hw2 : p.outerScreenWidth.isSome <;>
        by_cases hh2 : p.outerScreenHeight.isSome <;>
        by_cases hd2 : p.outerScreenDiagonal.isSome <;>
        by_cases hph : jsTruthy p.outerScreenHeight <;>
        by_cases hpw : jsTruthy p.outerScreenWidth <;>
        first
        | (simp [DeviceImpl.buildIni, DeviceImpl.buildIniDerived, DeviceImpl.buildIniDouble,
            DeviceImpl.buildIniPhy, DeviceImpl.productConfig, DeviceImpl.useDualScreen,
            mkDevice_cachedIni, mkDevice_options, mkDevice_image, mkDevice_uuid,
            hrec, DeviceImpl.buildListRecord, DeviceImpl.getScreen,
            hscr, h1, hw2, hh2, hd2, hph, hpw, defaultIniOptions, assocGet, assocSet]
           done)
        | (rw [dualScreenSelected, hscr] at hcond
           simp [h1, hw2, hh2, hd2] at hcond)

/-- Witness for C1: a concrete dual-screen device (PC image + MateBook Fold
preset) and a concrete single-screen device (phone image + raw screen), with
the hypotheses of `buildIni_dual_screen_rule` discharged by evaluation. -/
theorem buildIni_dual_screen_rule_witness :
    (dualScreenSelected pcImage foldDeviceOptions = true ∧
      assocGet ((mkDevice pcImage foldDeviceOptions "u-1").buildIni defaultIniOptions)
        "hw.lcd.number" = some (some "2")) ∧
    (dualScreenSelected phoneImage rawDeviceOptions = false ∧
      assocGet ((mkDevice phoneImage rawDeviceOptions "u-2").buildIni defaultIniOptions)
        "hw.lcd.number" = some (some "1")) :=
  ⟨⟨by decide, ((buildIni_dual_screen_rule pcImage foldDeviceOptions "u-1").1 (by decide)
      mateBookFoldItem "2in1 Foldable" rfl).1⟩,
   ⟨by decide, ((buildIni_dual_screen_rule phoneImage rawDeviceOptions "u-2").2 (by decide)).1⟩⟩

/-- C10: absent a caller override of the key, the mapping produced by
`buildIni` always contains `isCustomize`, bound to `"false"` exactly when the
device's screen is a product preset and to `"true"` exactly when it is a raw
screen. -/
theorem buildIni_isCustomize (img : LocalImage) (opts : DeviceOptions) (u : String)
    (iniOpts : IniOptions)
    (hov : ∀ kv ∈ iniOpts.overrides, kv.1 ≠ "isCustomize") :
    assocGet ((mkDevice img opts u).buildIni iniOpts) "isCustomize"
      = some (some (match opts.screen with
        | .preset _ _ => "false"
        | .raw _ => "true")) := by
  simp only [DeviceImpl.buildIni, mkDevice_cachedIni]
  rw [assocGet_buildIniPhy_ne _ _ _ (by decide) (by decide),
    assocGet_buildIniDouble_ne _ _ _ (by decide) (by decide) (by decide),
    assocGet_foldl_not_mem _ _ _ hov]
  cases hscr : opts.screen with
  | raw s =>
    simp [DeviceImpl.buildIniDerived, DeviceImpl.productConfig, mkDevice_options, hscr,
      assocGet]
  | preset p dt =>
    simp [DeviceImpl.buildIniDerived, DeviceImpl.productConfig, mkDevice_options, hscr,
      assocGet]

/-- Witness for C10: the preset device maps `isCustomize` to `"false"`, the
raw-screen device to `"true"`. -/
theorem buildIni_isCustomize_witness :
    assocGet ((mkDevice pcImage foldDeviceOptions "u-3").buildIni defaultIniOptions)
      "isCustomize" = some (some "false") ∧
    assocGet ((mkDevice phoneImage rawDeviceOptions "u-3b").buildIni defaultIniOptions)
      "isCustomize" = some (some "true") :=
  ⟨buildIni_isCustomize pcImage foldDeviceOptions "u-3" defaultIniOptions (by decide),
   buildIni_isCustomize phoneImage rawDeviceOptions "u-3b" defaultIniOptions (by decide)⟩

/-- Override map binding a dual-screen key. -/
def overrideDouble : IniOptions :=
  { overrides := [("hw.lcd.double.diagonalSize", some "99")] }

/-- Counterexample for C4: on a dual-screen device the `hw.lcd.double.*`
assignments run after the overrides spread, so a caller override of
`hw.lcd.double.diagonalSize` is overwritten by the derived preset value. -/
theorem buildIni_override_clobbered :
    assocGet ((mkDevice pcImage foldDeviceOptions "u-5").buildIni overrideDouble)
      "hw.lcd.double.diagonalSize" = some (some "18") ∧
    assocGet ((mkDevice pcImage foldDeviceOptions "u-5").buildIni overrideDouble)
      "hw.lcd.double.diagonalSize" ≠ some (some "99") := by
  constructor
  · decide
  · decide

/-- C4 (amended): a caller-supplied override wins over every field of the
object literal (all derived fields emitted there); only the five keys assigned
after the spread — `hw.lcd.double.diagonalSize/height/width` and
`hw.phy.height/width` — can overwrite an override. -/
theorem buildIni_overrides_last (img : LocalImage) (opts : DeviceOptions) (u : String)
    (iniOpts : IniOptions) (k : String) (v : JsVal)
    (hnd : (iniOpts.overrides.map Prod.fst).Nodup)
    (hmem : (k, v) ∈ iniOpts.overrides)
    (h1 : k ≠ "hw.lcd.double.diagonalSize") (h2 : k ≠ "hw.lcd.double.height")
    (h3 : k ≠ "hw.lcd.double.width") (h4 : k ≠ "hw.phy.height")
    (h5 : k ≠ "hw.phy.width") :
    assocGet ((mkDevice img opts u).buildIni iniOpts) k = some v := by
  simp only [DeviceImpl.buildIni, mkDevice_cachedIni]
  rw [assocGet_buildIniPhy_ne _ _ _ h4 h5, assocGet_buildIniDouble_ne _ _ _ h1 h2 h3]
  exact assocGet_foldl_mem _ _ _ _ hnd hmem

/-- Override map binding a derived key and a fresh key. -/
def overrideSample : IniOptions :=
  { overrides := [("vendorCountry", some "US"), ("custom.key", some "1")] }

/-- Witness for the amended C4: a concrete override of a derived field
(`vendorCountry`) and of a fresh key both end up verbatim in the mapping. -/
theorem buildIni_overrides_last_witness :
    assocGet ((mkDevice pcImage foldDeviceOptions "u-4").buildIni overrideSample)
      "vendorCountry" = some (some "US") ∧
    assocGet ((mkDevice pcImage foldDeviceOptions "u-4").buildIni overrideSample)
      "custom.key" = some (some "1") :=
  ⟨buildIni_overrides_last pcImage foldDeviceOptions "u-4" overrideSample
      "vendorCountry" (some "US") (by decide) (by decide) (by decide) (by decide)
      (by decide) (by decide) (by decide),
   buildIni_overrides_last pcImage foldDeviceOptions "u-4" overrideSample
      "custom.key" (some "1") (by decide) (by decide) (by decide) (by decide)
      (by decide) (by decide) (by decide)⟩

/-! ### Determinism of `buildIni` up to the drawn UUID -/

theorem getScreen_mkDevice (i : LocalImage) (o : DeviceOptions) (u : String) :
    (mkDevice i o u).getScreen
      = (match o.screen with | .preset p _ => p.toScreen | .raw s => s) := rfl

theorem buildIniDerived_agree (i : LocalImage) (o : DeviceOptions) (u₁ u₂ : String)
    (iniOpts : IniOptions) :
    AgreeExcept "uuid" ((mkDevice i o u₁).buildIniDerived iniOpts)
      ((mkDevice i o u₂).buildIniDerived iniOpts) := by
  unfold DeviceImpl.buildIniDerived
  rw [buildList_eq_record _ (mkDevice_cachedList i o u₁),
    buildList_eq_record _ (mkDevice_cachedList i o u₂),
    useDualScreen_mkDevice, useDualScreen_mkDevice,
    productConfig_mkDevice, productConfig_mkDevice,
    getScreen_mkDevice, getScreen_mkDevice]
  simp only [DeviceImpl.buildListRecord, mkDevice_options, mkDevice_image, mkDevice_uuid]
  repeat
    first
    | exact List.Forall₂.nil
    | refine List.Forall₂.cons ⟨rfl, fun h => rfl⟩ ?_
    | refine List.Forall₂.cons ⟨rfl, fun h => absurd rfl h⟩ ?_

theorem buildIniDouble_agree {m₁ m₂ : IniMap} (h : AgreeExcept "uuid" m₁ m₂)
    (i : LocalImage) (o : DeviceOptions) (u₁ u₂ : String) :
    AgreeExcept "uuid" ((mkDevice i o u₁).buildIniDouble m₁)
      ((mkDevice i o u₂).buildIniDouble m₂) := by
  unfold DeviceImpl.buildIniDouble
  rw [useDualScreen_mkDevice, useDualScreen_mkDevice,
    productConfig_mkDevice, productConfig_mkDevice]
  by_cases hd : dualScreenSelected i o <;> cases hs : o.screen <;> simp [hd, hs] <;>
    first
    | exact ((h.set _ _).set _ _).set _ _
    | exact h

theorem buildIniPhy_agree {m₁ m₂ : IniMap} (h : AgreeExcept "uuid" m₁ m₂)
    (i : LocalImage) (o : DeviceOptions) (u₁ u₂ : String) :
    AgreeExcept "uuid" ((mkDevice i o u₁).buildIniPhy m₁)
      ((mkDevice i o u₂).buildIniPhy m₂) := by
  unfold DeviceImpl.buildIniPhy
  rw [useDualScreen_mkDevice, useDualScreen_mkDevice,
    productConfig_mkDevice, productConfig_mkDevice]
  cases hs : o.screen with
  | raw s => exact h
  | preset p dt =>
    by_cases hd : !dualScreenSelected i o <;>
      by_cases hh : jsTruthy p.outerScreenHeight <;>
      by_cases hw : jsTruthy p.outerScreenWidth <;>
      simp [hd, hh, hw] <;>
      first
      | exact h
      | exact h.set _ _
      | exact (h.set _ _).set _ _

/-- Counterexample for C6: two devices constructed from the identical
`(image, options)` pair draw different random UUIDs, and their `buildIni`
mappings then differ (at the `uuid` entry). -/
theorem buildIni_not_uuid_independent :
    (mkDevice pcImage foldDeviceOptions "u-a").buildIni defaultIniOptions
      ≠ (mkDevice pcImage foldDeviceOptions "u-b").buildIni defaultIniOptions := by
  decide

/-- C6 (amended): `buildIni` is a pure function of the image, the options, the
ini options and the UUID drawn at construction: for equal UUIDs the mappings
are identical (field order included), and for any two UUIDs the mappings agree
at every key other than `uuid`, field order included. -/
theorem buildIni_deterministic_up_to_uuid (img : LocalImage) (opts : DeviceOptions)
    (u₁ u₂ : String) (iniOpts : IniOptions) :
    (((mkDevice img opts u₁).buildIni iniOpts).filter (fun kv => kv.1 != "uuid")
      = ((mkDevice img opts u₂).buildIni iniOpts).filter (fun kv => kv.1 != "uuid")) ∧
    (u₁ = u₂ →
      (mkDevice img opts u₁).buildIni iniOpts = (mkDevice img opts u₂).buildIni iniOpts) := by
  constructor
  · simp only [DeviceImpl.buildIni, mkDevice_cachedIni]
    exact (buildIniPhy_agree (buildIniDouble_agree
      ((buildIniDerived_agree img opts u₁ u₂ iniOpts).foldl iniOpts.overrides)
      img opts u₁ u₂) img opts u₁ u₂).filter_eq
  · intro h
    rw [h]

/-- Witness for the amended C6 at a concrete device: equal UUIDs give equal
mappings, and for two different UUIDs everything but the `uuid` entry agrees. -/
theorem buildIni_deterministic_up_to_uuid_witness :
    (((mkDevice pcImage foldDeviceOptions "u-a").buildIni defaultIniOptions).filter
        (fun kv => kv.1 != "uuid")
      = ((mkDevice pcImage foldDeviceOptions "u-b").buildIni defaultIniOptions).filter
        (fun kv => kv.1 != "uuid")) ∧
    (mkDevice pcImage foldDeviceOptions "u-c").buildIni defaultIniOptions
      = (mkDevice pcImage foldDeviceOptions "u-c").buildIni defaultIniOptions :=
  ⟨(buildIni_deterministic_up_to_uuid pcImage foldDeviceOptions "u-a" "u-b"
      defaultIniOptions).1,
   (buildIni_deterministic_up_to_uuid pcImage foldDeviceOptions "u-c" "u-c"
      defaultIniOptions).2 rfl⟩

/-- C7: `toIniString` serialises `buildIni()` as `key=value` lines in
insertion order with one trailing newline, omitting entries whose value is
`undefined`/`null`, and — whenever no key or value contains a newline and no
key contains `=` — parsing the text back as key/value pairs reproduces exactly
the mapping minus its `undefined`-valued entries, order included. -/
theorem toIniString_round_trip (img : LocalImage) (opts : DeviceOptions) (u : String)
    (h : ∀ kv ∈ (mkDevice img opts u).buildIni defaultIniOptions,
      '\n' ∉ kv.1.data ∧ '=' ∉ kv.1.data ∧ '\n' ∉ (kv.2.getD "").data) :
    parseIniText (mkDevice img opts u).toIniString
      = ((mkDevice img opts u).buildIni defaultIniOptions).filterMap
        (fun kv => kv.2.map (fun v => (kv.1, v))) := by
  unfold DeviceImpl.toIniString
  refine parseIniText_joinLines _ ?_
  intro kv hkv
  refine ⟨(h kv hkv).1, (h kv hkv).2.1, ?_⟩
  intro s hs
  have := (h kv hkv).2.2
  rw [hs] at this
  exact this

/-- A tablet product preset without a `devModel` (so the generated mapping has
`deviceModel` omitted while `productModel` is populated). -/
def padItem : ProductConfigItem :=
  { name := "Pad X", screenWidth := "2000", screenHeight := "1200",
    screenDiagonal := "11", screenDensity := "240" }

/-- A `tablet` local image. -/
def padImage : LocalImage :=
  { path := "system-image,HarmonyOS-6.0.2,tablet_arm", version := "6.0.0.129",
    apiVersion := "22", releaseType := "Beta1",
    fsPath := "/ib/system-image/HarmonyOS-6.0.2/tablet_arm", manager := sampleManager }

/-- Device options carrying the `Pad X` preset. -/
def padDeviceOptions : DeviceOptions :=
  { name := "PadX", cpuNumber := 4, diskSize := 4096, memorySize := 2048,
    screen := .preset padItem "Tablet" }

/-- Witness for C7: a concrete device with one optional field populated
(`productModel`) and one omitted (`deviceModel`, `undefined`-valued), whose
serialised mapping parses back to the mapping minus the omitted entry. -/
theorem toIniString_round_trip_witness :
    (∀ kv ∈ (mkDevice padImage padDeviceOptions "u-7").buildIni defaultIniOptions,
      '\n' ∉ kv.1.data ∧ '=' ∉ kv.1.data ∧ '\n' ∉ (kv.2.getD "").data) ∧
    assocGet ((mkDevice padImage padDeviceOptions "u-7").buildIni defaultIniOptions)
      "deviceModel" = some none ∧
    assocGet ((mkDevice padImage padDeviceOptions "u-7").buildIni defaultIniOptions)
      "productModel" = some (some "Pad X") ∧
    parseIniText (mkDevice padImage padDeviceOptions "u-7").toIniString
      = ((mkDevice padImage padDeviceOptions "u-7").buildIni defaultIniOptions).filterMap
        (fun kv => kv.2.map (fun v => (kv.1, v))) :=
  ⟨by decide, by decide, by decide,
   toIniString_round_trip padImage padDeviceOptions "u-7" (by decide)⟩

/-- C5: `startDownload` sends a `Range: bytes=<offset>-` header exactly when a
partial cache file with positive size exists; only HTTP 200 and 206 are
accepted (any other status fails before any filesystem write); a 200 with a
positive offset removes the stale partial file and writes the body from byte 0
in overwrite mode; a 206 with a positive offset appends the body at the
offset. -/
theorem startDownload_protocol (fs : DownloadFs) (status : Nat) (body : List Nat) :
    (¬(status = 200 ∨ status = 206) → startDownload fs status body = .error status) ∧
    (status = 200 → resumeOffset fs > 0 →
      startDownload fs status body = .ok
        { rangeHeader := some ("bytes=" ++ toString (resumeOffset fs) ++ "-"),
          status := 200, removedStale := true, writeFlags := "w", writeStart := 0,
          fs := { cacheFile := some body } }) ∧
    (status = 206 → resumeOffset fs > 0 →
      startDownload fs status body = .ok
        { rangeHeader := some ("bytes=" ++ toString (resumeOffset fs) ++ "-"),
          status := 206, removedStale := false, writeFlags := "a",
          writeStart := resumeOffset fs,
          fs := { cacheFile := some ((fs.cacheFile.getD []) ++ body) } }) ∧
    (resumeOffset fs = 0 → (status = 200 ∨ status = 206) →
      startDownload fs status body = .ok
        { rangeHeader := none, status := status, removedStale := false,
          writeFlags := "w", writeStart := 0, fs := { cacheFile := some body } }) ∧
    (∀ run, startDownload fs status body = .ok run →
      (run.rangeHeader.isSome ↔ resumeOffset fs > 0)) := by
  refine ⟨?_, ?_, ?_, ?_, ?_⟩
  · intro hbad
    have h1 : (status == 200 || status == 206) = false := by
      simp only [Bool.or_eq_false_iff, beq_eq_false_iff_ne]
      exact ⟨fun h => hbad (Or.inl h), fun h => hbad (Or.inr h)⟩
    simp [startDownload, h1]
  · intro h200 hoff
    subst h200
    simp [startDownload, hoff, Nat.pos_iff_ne_zero.mp hoff]
  · intro h206 hoff
    subst h206
    simp [startDownload, hoff, Nat.pos_iff_ne_zero.mp hoff]
  · intro hoff hgood
    have h1 : (status == 200 || status == 206) = true := by
      rcases hgood with h | h <;> subst h <;> simp
    simp [startDownload, h1, hoff]
  · intro run hrun
    by_cases hgood : (status == 200 || status == 206) = true
    · simp only [startDownload, hgood, Bool.not_true, Bool.false_eq_true, if_false] at hrun
      cases hrun
      by_cases hoff : resumeOffset fs > 0 <;> simp [hoff]
    · have h1 : (status == 200 || status == 206) = false :=
        Bool.eq_false_iff.mpr hgood
      simp [startDownload, h1] at hrun

/-- Witness for C5: concrete runs — a 404 is rejected; a 200 with a two-byte
partial file discards it and overwrites; a 206 appends at offset 2; a fresh
download sends no `Range` header. -/
theorem startDownload_protocol_witness :
    startDownload { cacheFile := some [1, 2] } 404 [9] = .error 404 ∧
    startDownload { cacheFile := some [1, 2] } 200 [9] = .ok
      { rangeHeader := some "bytes=2-", status := 200, removedStale := true,
        writeFlags := "w", writeStart := 0, fs := { cacheFile := some [9] } } ∧
    startDownload { cacheFile := some [1, 2] } 206 [9] = .ok
      { rangeHeader := some "bytes=2-", status := 206, removedStale := false,
        writeFlags := "a", writeStart := 2, fs := { cacheFile := some [1, 2, 9] } } ∧
    startDownload { cacheFile := none } 200 [9] = .ok
      { rangeHeader := none, status := 200, removedStale := false,
        writeFlags := "w", writeStart := 0, fs := { cacheFile := some [9] } } :=
  ⟨(startDownload_protocol { cacheFile := some [1, 2] } 404 [9]).1 (by decide),
   (startDownload_protocol { cacheFile := some [1, 2] } 200 [9]).2.1 rfl (by decide),
   (startDownload_protocol { cacheFile := some [1, 2] } 206 [9]).2.2.1 rfl (by decide),
   (startDownload_protocol { cacheFile := none } 200 [9]).2.2.2.1 rfl (Or.inl rfl)⟩

/-- C9: for every device whose `isDeployed` returns `true`, `deploy` returns
normally without raising any error and without modifying the filesystem — in
particular the registry file, the target directory and the configuration file
are untouched (a silent no-op, not a duplicate failure). -/
theorem deploy_noop_when_deployed (d : DeviceImpl) (fs : Fs)
    (h : d.isDeployed fs = .ok true) : d.deploy fs = (none, fs) := by
  unfold DeviceImpl.deploy
  rw [h]

/-- A filesystem on which `rawDevice` is fully deployed (registry entry plus
`config.ini` on disk). -/
def deployedFs : Fs :=
  { files := [(pathJoin "/dp" "lists.json", .jsonData (.arr [rawDevice.buildList])),
      (pathResolve (pathResolve "/dp" "MyPhone") "config.ini", .textData "")],
    dirs := ["/dp", pathResolve "/dp" "MyPhone"] }

/-- Witness for C9 at a concrete deployed device. -/
theorem deploy_noop_when_deployed_witness :
    rawDevice.isDeployed deployedFs = .ok true ∧
    rawDevice.deploy deployedFs = (none, deployedFs) :=
  ⟨rfl, deploy_noop_when_deployed rawDevice deployedFs rfl⟩

/-! ### Behaviour of `deploy` on the registry -/

theorem pathResolve_eq_pathJoin (a b : String) : pathResolve a b = pathJoin a b := rfl

theorem configIni_ne_listsPath (d : DeviceImpl) :
    pathJoin d.buildList.path "config.ini" ≠ d.listsPath := by
  unfold pathJoin DeviceImpl.listsPath
  intro h
  exact lists_json_ne_config_ini (d.image.manager.deployedPath ++ "/")
    (d.buildList.path ++ "/") h.symm

theorem isDeployed_of_no_name (d : DeviceImpl) (fs : Fs)
    (l0 : List FullDeployedImageOptions)
    (hreg : assocGet fs.files d.listsPath = some (.jsonData (.arr l0)))
    (hcount : l0.countP (fun item => item.name == d.options.name) = 0) :
    d.isDeployed fs = .ok false := by
  have hany : l0.any (fun item =>
      item.name == d.options.name
        && fs.existsSync (pathResolve item.path "config.ini")) = false := by
    rw [List.any_eq_false]
    intro item hitem
    have hne := List.countP_eq_zero.mp hcount item hitem
    simp only [Bool.and_eq_true, not_and]
    intro hname
    exact absurd hname hne
  simp only [DeviceImpl.isDeployed, hreg, parseJson, hany]

theorem deployCore_target_exists (d : DeviceImpl) (fs1 : Fs)
    (h : fs1.existsSync d.buildList.path = true) :
    d.deployCore fs1 = (some (.deployErr .DEVICE_ALREADY_DEPLOYED), fs1) := by
  unfold DeviceImpl.deployCore
  simp [h]

theorem deployCore_success_shape (d : DeviceImpl) (fs1 : Fs)
    (l0 : List FullDeployedImageOptions)
    (hreg : assocGet fs1.files d.listsPath = some (.jsonData (.arr l0)))
    (hfind : l0.any (fun item => item.name == d.buildList.name) = false)
    (htarget : fs1.existsSync d.buildList.path = false) :
    d.deployCore fs1 = (none,
      ((fs1.writeFile d.listsPath (.jsonData (.arr (l0 ++ [d.buildList])))).mkdir
        d.buildList.path).writeFile (pathJoin d.buildList.path "config.ini")
        (.textData d.toIniString)) := by
  have hex : fs1.existsSync d.listsPath = true :=
    Fs.existsSync_of_isFile (by simp [Fs.isFile, hreg])
  unfold DeviceImpl.deployCore
  simp [htarget, hex, hreg, parseJson, hfind]

theorem isDeployed_after_success (d : DeviceImpl) (fs1 : Fs)
    (l0 : List FullDeployedImageOptions) (hfresh : d.cachedList = none) :
    d.isDeployed (((fs1.writeFile d.listsPath
        (.jsonData (.arr (l0 ++ [d.buildList])))).mkdir d.buildList.path).writeFile
        (pathJoin d.buildList.path "config.ini") (.textData d.toIniString))
      = .ok true := by
  have hne : d.listsPath ≠ pathJoin d.buildList.path "config.ini" :=
    (configIni_ne_listsPath d).symm
  have hfiles : (((fs1.writeFile d.listsPath
      (.jsonData (.arr (l0 ++ [d.buildList])))).mkdir d.buildList.path).writeFile
      (pathJoin d.buildList.path "config.ini") (.textData d.toIniString)).files
      = assocSet (assocSet fs1.files d.listsPath (.jsonData (.arr (l0 ++ [d.buildList]))))
          (pathJoin d.buildList.path "config.ini") (.textData d.toIniString) := by
    simp [Fs.writeFile_files, Fs.mkdir_files]
  have hget : assocGet (((fs1.writeFile d.listsPath
      (.jsonData (.arr (l0 ++ [d.buildList])))).mkdir d.buildList.path).writeFile
      (pathJoin d.buildList.path "config.ini") (.textData d.toIniString)).files d.listsPath
      = some (.jsonData (.arr (l0 ++ [d.buildList]))) := by
    rw [hfiles, assocGet_assocSet_ne _ _ _ _ hne, assocGet_assocSet_self]
  have hcfg : (((fs1.writeFile d.listsPath
      (.jsonData (.arr (l0 ++ [d.buildList])))).mkdir d.buildList.path).writeFile
      (pathJoin d.buildList.path "config.ini") (.textData d.toIniString)).existsSync
      (pathResolve d.buildList.path "config.ini") = true := by
    apply Fs.existsSync_of_isFile
    rw [pathResolve_eq_pathJoin]
    simp [Fs.isFile, hfiles, assocGet_assocSet_self]
  have hany : (l0 ++ [d.buildList]).any (fun item =>
      item.name == d.options.name
        && (((fs1.writeFile d.listsPath
          (.jsonData (.arr (l0 ++ [d.buildList])))).mkdir d.buildList.path).writeFile
          (pathJoin d.buildList.path "config.ini")
          (.textData d.toIniString)).existsSync (pathResolve item.path "config.ini"))
      = true := by
    rw [List.any_append]
    refine Bool.or_eq_true_iff.mpr (Or.inr ?_)
    simp [buildList_name d hfresh, hcfg]
  simp only [DeviceImpl.isDeployed, hget, parseJson, hany]

/-- C2 (amended): when the registry file holds an array without the device's
name and `add` succeeds, a second `add` with the same name does not fail with
a duplicate condition — it returns silently with the filesystem unchanged —
and the registry still contains exactly one entry for the name. -/
theorem deploy_twice_silent_noop (d : DeviceImpl) (fs0 : Fs)
    (l0 : List FullDeployedImageOptions)
    (hfresh : d.cachedList = none)
    (hreg : assocGet fs0.files d.listsPath = some (.jsonData (.arr l0)))
    (hcount : l0.countP (fun item => item.name == d.options.name) = 0)
    (hok : (d.deploy fs0).1 = none) :
    d.deploy (d.deploy fs0).2 = (none, (d.deploy fs0).2) ∧
    registryCountName d (d.deploy fs0).2 = 1 := by
  have hb := isDeployed_of_no_name d fs0 l0 hreg hcount
  obtain ⟨fs1, hfs1files, hdeploy⟩ :
      ∃ fs1, fs1.files = fs0.files ∧ d.deploy fs0 = d.deployCore fs1 := by
    refine ⟨if !fs0.existsSync d.image.manager.deployedPath then
        fs0.mkdir d.image.manager.deployedPath else fs0, ?_, ?_⟩
    · split
      · exact Fs.mkdir_files fs0 _
      · rfl
    · unfold DeviceImpl.deploy
      rw [hb]
  have hreg1 : assocGet fs1.files d.listsPath = some (.jsonData (.arr l0)) := by
    rw [hfs1files]
    exact hreg
  have hfind : l0.any (fun item => item.name == d.buildList.name) = false := by
    rw [buildList_name d hfresh, List.any_eq_false]
    exact List.countP_eq_zero.mp hcount
  by_cases htarget : fs1.existsSync d.buildList.path = true
  · exfalso
    rw [hdeploy, deployCore_target_exists d fs1 htarget] at hok
    simp at hok
  · have hshape := deployCore_success_shape d fs1 l0 hreg1 hfind
      (Bool.eq_false_iff.mpr htarget)
    rw [hdeploy, hshape]
    constructor
    · have hdep := isDeployed_after_success d fs1 l0 hfresh
      unfold DeviceImpl.deploy
      rw [hdep]
    · unfold registryCountName registryEntries
      have hget : assocGet (((fs1.writeFile d.listsPath
          (.jsonData (.arr (l0 ++ [d.buildList])))).mkdir d.buildList.path).writeFile
          (pathJoin d.buildList.path "config.ini") (.textData d.toIniString)).files
          d.listsPath = some (.jsonData (.arr (l0 ++ [d.buildList]))) := by
        have hne : d.listsPath ≠ pathJoin d.buildList.path "config.ini" :=
          (configIni_ne_listsPath d).symm
        simp only [Fs.writeFile_files, Fs.mkdir_files]
        rw [assocGet_assocSet_ne _ _ _ _ hne, assocGet_assocSet_self]
      rw [hget, List.countP_append, hcount, List.countP_cons]
      simp [buildList_name d hfresh]

/-- A filesystem whose registry file exists and holds the empty array. -/
def seededFs : Fs :=
  { files := [(pathJoin "/dp" "lists.json", .jsonData (.arr []))], dirs := ["/dp"] }

/-- The empty filesystem (no registry file, no directories). -/
def emptyFs : Fs := { files := [], dirs := [] }

/-- Counterexample for C2: after a successful `add` of `rawDevice` into a
registry that exists as an array, the registry contains an entry with the
device's name, yet a second `add` with the same name raises no error at all —
it does not fail with a duplicate condition. -/
theorem deploy_second_call_no_error :
    registryCountName rawDevice (rawDevice.deploy seededFs).2 = 1 ∧
    (rawDevice.deploy seededFs).1 = none ∧
    (rawDevice.deploy (rawDevice.deploy seededFs).2).1 = none := by
  refine ⟨by decide, rfl, ?_⟩
  decide

/-- Witness for the amended C2 at the concrete second call. -/
theorem deploy_twice_silent_noop_witness :
    rawDevice.deploy (rawDevice.deploy seededFs).2 = (none, (rawDevice.deploy seededFs).2) ∧
    registryCountName rawDevice (rawDevice.deploy seededFs).2 = 1 :=
  deploy_twice_silent_noop rawDevice seededFs [] rfl rfl rfl rfl

/-- C3: evaluation of `deploy` at the failing input — the very first
deployment, when the registry file does not yet exist.  The call returns
successfully and writes the single-element registry, but the early
`return fs.writeFileSync(...)` skips the remaining steps: no target directory
is created and no `config.ini` is written; a second `deploy` of the same
device then fails with `DEVICE_ALREADY_DEPLOYED`. -/
theorem deploy_first_deployment_skips_config :
    (rawDevice.deploy emptyFs).1 = none ∧
    registryEntries rawDevice (rawDevice.deploy emptyFs).2 = [rawDevice.buildList] ∧
    assocGet ((rawDevice.deploy emptyFs).2).files
      (pathJoin rawDevice.buildList.path "config.ini") = none ∧
    ((rawDevice.deploy emptyFs).2).isDir rawDevice.buildList.path = false ∧
    (rawDevice.deploy (rawDevice.deploy emptyFs).2).1
      = some (.deployErr .DEVICE_ALREADY_DEPLOYED) := by
  refine ⟨rfl, by decide, by decide, by decide, ?_⟩
  decide

/-- A filesystem whose registry file holds a non-array, non-null JSON payload. -/
def nonArrayFs : Fs :=
  { files := [(pathJoin "/dp" "lists.json", .jsonData .nonArray)], dirs := ["/dp"] }

/-- Counterexample for C8: with a present registry file whose payload is not
an array, the `list` operation (`getDevices`) does not fail with a
structural-failure condition — it silently returns the empty device list. -/
theorem getDevices_non_array_silent :
    phoneImage.getDevices nonArrayFs = .ok [] := rfl

theorem isDeployed_error_is_typeErr (d : DeviceImpl) (fs : Fs) (e : JsErr)
    (h : d.isDeployed fs = .error e) : e = .typeErr := by
  unfold DeviceImpl.isDeployed at h
  cases hfd : assocGet fs.files d.listsPath with
  | none =>
    simp only [hfd] at h
    exact Except.noConfusion h
  | some fd =>
    cases hj : parseJson fd with
    | arr l =>
      simp only [hfd, hj] at h
      exact Except.noConfusion h
    | nullv =>
      simp only [hfd, hj] at h
      exact Except.noConfusion h
    | nonArray =>
      simp only [hfd, hj] at h
      exact (Except.error.injEq _ _).mp h.symm

/-- C8 (amended): a non-array registry payload is never reported through the
structural-failure condition.  `getDevices` silently coerces it to the empty
device list; `add` (`deploy`) fails first inside `isDeployed` with a type
error (`.some` called on a non-array), before its own array check; and no
`deploy` call can ever raise `LIST_JSON_NOT_AN_ARRAY` — the check is dead
code. -/
theorem registry_non_array_behavior :
    (∀ (img : LocalImage) (fs : Fs),
      assocGet fs.files (pathResolve img.manager.deployedPath "lists.json")
        = some (.jsonData .nonArray) →
      img.getDevices fs = .ok []) ∧
    (∀ (d : DeviceImpl) (fs : Fs),
      assocGet fs.files d.listsPath = some (.jsonData .nonArray) →
      d.deploy fs = (some .typeErr, fs)) ∧
    (∀ (d : DeviceImpl) (fs : Fs),
      (d.deploy fs).1 ≠ some (.deployErr .LIST_JSON_NOT_AN_ARRAY)) := by
  refine ⟨?_, ?_, ?_⟩
  · intro img fs h
    simp only [LocalImage.getDevices, h, parseJson]
  · intro d fs h
    have hdep : d.isDeployed fs = .error .typeErr := by
      simp only [DeviceImpl.isDeployed, h, parseJson]
    unfold DeviceImpl.deploy
    rw [hdep]
  · intro d fs
    unfold DeviceImpl.deploy
    cases hdep : d.isDeployed fs with
    | error e =>
      have he := isDeployed_error_is_typeErr d fs e hdep
      subst he
      simp
    | ok b =>
      cases b with
      | true => simp
      | false =>
        have hfiles1 : ∀ fs1 : Fs,
            (if !fs.existsSync d.image.manager.deployedPath then
              fs.mkdir d.image.manager.deployedPath else fs) = fs1 →
            fs1.files = fs.files := by
          intro fs1 hg
          rw [← hg]
          split
          · exact Fs.mkdir_files fs _
          · rfl
        simp only
        generalize hg : (if !fs.existsSync d.image.manager.deployedPath then
          fs.mkdir d.image.manager.deployedPath else fs) = fs1
        have hf1 := hfiles1 fs1 hg
        clear hg hfiles1
        unfold DeviceImpl.deployCore
        by_cases h1 : fs1.existsSync d.buildList.path = true
        · simp [h1]
        · rw [if_neg (by simp [h1])]
          by_cases h2 : fs1.existsSync d.listsPath = true
          · rw [if_neg (by simp [h2])]
            cases hfd : assocGet fs1.files d.listsPath with
            | none => simp [hfd]
            | some fd =>
              cases hj : parseJson fd with
              | nonArray =>
                exfalso
                rw [hf1] at hfd
                have : d.isDeployed fs = .error .typeErr := by
                  simp only [DeviceImpl.isDeployed, hfd, hj]
                rw [this] at hdep
                cases hdep
              | arr l =>
                simp only [hfd, hj]
                by_cases hdup : l.any (fun item => item.name == d.buildList.name) = true
                · simp [hdup]
                · simp [hdup]
              | nullv =>
                simp only [hfd, hj]
                simp
          · rw [if_pos (by simp [h2])]
            simp

/-- Witness for the amended C8 at concrete inputs. -/
theorem registry_non_array_behavior_witness :
    phoneImage.getDevices nonArrayFs = .ok [] ∧
    rawDevice.deploy nonArrayFs = (some .typeErr, nonArrayFs) ∧
    (rawDevice.deploy seededFs).1 ≠ some (.deployErr .LIST_JSON_NOT_AN_ARRAY) :=
  ⟨registry_non_array_behavior.1 phoneImage nonArrayFs rfl,
   registry_non_array_behavior.2.1 rawDevice nonArrayFs rfl,
   registry_non_array_behavior.2.2 rawDevice seededFs⟩
